import Mathlib

/-!
Shallow embedding of the `mineral_analysis` spreadsheet-cleaning scripts.

Spreadsheets are modelled as grids of cells; a pandas `NaN` is the `empty`
cell, numbers are exact rationals, and strings are Lean strings.  Each
Python function of the repository that the verified properties touch is
translated into a Lean definition that keeps the source's name where Lean
allows it.
-/

namespace MineralAnalysis

/-- A spreadsheet cell as pandas sees it after `read_excel`: missing
(`NaN`), a number, or a string. -/
inductive Cell
  | empty
  | num (q : ℚ)
  | str (s : String)
  deriving DecidableEq, Repr

abbrev Row := List Cell
abbrev Grid := List Row

/-- Truth of `pd.isna` on a cell. -/
def Cell.isNa : Cell → Bool
  | .empty => true
  | _ => false

/-- Truth of `cell == 2023` as numpy evaluates it: only a numeric cell
holding 2023 compares equal (strings never compare equal to an int). -/
def Cell.is2023 : Cell → Bool
  | .num q => q = 2023
  | _ => false

/-- Substring test on character lists, used to embed Python's `in` on
strings (`'scenario' in s`, `' - Mining' in category`, ...). -/
def charsContain (needle : List Char) : List Char → Bool
  | [] => needle.isEmpty
  | c :: rest => needle.isPrefixOf (c :: rest) || charsContain needle rest

/-- Character-list implementation of `str.lower()` (sufficient for the
ASCII scenario matching the source performs); Lean's `String.toLower`
does not kernel-reduce, so the embedding works on the character list. -/
def pyLower (s : String) : String :=
  String.mk (s.data.map Char.toLower)

/-- Python `needle in hay` on strings. -/
def strContains (needle hay : String) : Bool :=
  charsContain needle.data hay.data

/-- Whitespace as Python's `str.strip()` sees it. -/
def isPySpace (c : Char) : Bool :=
  c = ' ' || c = '\t' || c = '\n' || c = '\r' || c = '\x0b' || c = '\x0c'

/-- Characters of a string after Python's `str.strip()`. -/
def stripChars (l : List Char) : List Char :=
  ((l.dropWhile isPySpace).reverse.dropWhile isPySpace).reverse

/-- Python `str.strip()`. -/
def pyStrip (s : String) : String :=
  String.mk (stripChars s.data)

/-- Python `int(q)` on a float: truncation toward zero. -/
def pyTrunc (q : ℚ) : Int :=
  if 0 ≤ q then ⌊q⌋ else ⌈q⌉

/-- Digits-only parse used to embed Python `int(s)` on an already
stripped string: optional sign followed by decimal digits. -/
def pyDigits? : List Char → Option Nat
  | [] => none
  | l => if l.all Char.isDigit then some (l.foldl (fun a c => a * 10 + c.toNat - '0'.toNat) 0) else none

/-- Python `int(s)` on a string, `none` when `int` would raise. -/
def pyStrToInt? (s : String) : Option Int :=
  match stripChars s.data with
  | '-' :: rest => (pyDigits? rest).map (fun n => -(n : Int))
  | '+' :: rest => (pyDigits? rest).map (fun n => (n : Int))
  | l => (pyDigits? l).map (fun n => (n : Int))

/-- Python `int(cell)`: truncates numbers, parses integer strings, raises
(`none`) on `NaN`. -/
def cellPyInt? : Cell → Option Int
  | .empty => none
  | .num q => some (pyTrunc q)
  | .str s => pyStrToInt? s

/-- Unsigned decimal parse: digits with an optional fractional part. -/
def parseDecimalPos? (l : List Char) : Option ℚ :=
  match l.span (fun c => c ≠ '.') with
  | (intPart, []) => (pyDigits? intPart).map (fun n => (n : ℚ))
  | (intPart, _dot :: fracPart) =>
    match pyDigits? intPart, pyDigits? fracPart with
    | some n, some f => some ((n : ℚ) + (f : ℚ) / ((10 : ℚ) ^ fracPart.length))
    | _, _ => none

/-- Small decimal parser embedding `pd.to_numeric(..., errors='coerce')`
on a string cell: optional sign, digits, optional fractional part. -/
def parseDecimal? (s : String) : Option ℚ :=
  match stripChars s.data with
  | '-' :: rest => (parseDecimalPos? rest).map (fun q => -q)
  | '+' :: rest => parseDecimalPos? rest
  | l => parseDecimalPos? l

/-- Embedding of `pd.to_numeric(cell, errors='coerce')`: numbers pass
through, numeric strings are parsed, everything else coerces to `NaN`. -/
def toNumeric : Cell → Option ℚ
  | .empty => none
  | .num q => some q
  | .str s => parseDecimal? s

/-- Pandas `Series.sum()` with the default `skipna=True`: `NaN` entries
are skipped and an all-`NaN` column sums to `0.0` (never to `NaN`). -/
def nansum (col : List Cell) : ℚ :=
  (col.filterMap toNumeric).sum

/-- Does a row consist solely of `NaN` cells (`dropna(how='all')`). -/
def rowAllNa (r : Row) : Bool := r.all Cell.isNa

/-- Embedding of `df.dropna(how='all')`: drop the rows whose cells are
all `NaN`. -/
def dropEmptyRows (g : Grid) : Grid :=
  g.filter (fun r => !rowAllNa r)

/-- Is column `j` of the grid entirely `NaN`. -/
def colAllNa (g : Grid) (j : Nat) : Bool :=
  g.all (fun r => (r.getD j Cell.empty).isNa)

/-- Width of a grid (all our grids are rectangular). -/
def gridWidth (g : Grid) : Nat :=
  (g.map List.length).foldr max 0

/-- Embedding of `df.dropna(axis=1, how='all')`: keep only the columns
that hold at least one non-`NaN` value. -/
def dropEmptyCols (g : Grid) : Grid :=
  let keep := (List.range (gridWidth g)).filter (fun j => !colAllNa g j)
  g.map (fun r => keep.map (fun j => r.getD j Cell.empty))

/-- The shared opening of every cleaning function:
`df.dropna(how='all').dropna(axis=1, how='all')` (rows first, then
columns) followed by `reset_index(drop=True)`. -/
def dropnaAll (g : Grid) : Grid :=
  dropEmptyCols (dropEmptyRows g)

/-- Decidable equality for `Except` results (needed to evaluate the
embedded fallible functions on concrete inputs). -/
instance {e a : Type} [DecidableEq e] [DecidableEq a] : DecidableEq (Except e a)
  | .error x, .error y =>
    if h : x = y then .isTrue (by rw [h]) else .isFalse (by intro hh; cases hh; exact h rfl)
  | .error _, .ok _ => .isFalse (by intro h; cases h)
  | .ok _, .error _ => .isFalse (by intro h; cases h)
  | .ok x, .ok y =>
    if h : x = y then .isTrue (by rw [h]) else .isFalse (by intro hh; cases hh; exact h rfl)

/-- First index satisfying a predicate.  This embeds the source loops of
the shape `for idx, row in df.iterrows(): if ...: year_row = idx; break`
(the enumeration counter is the returned index). -/
def firstIdx? {α : Type} (p : α → Bool) : List α → Option Nat
  | [] => none
  | x :: xs => if p x then some 0 else (firstIdx? p xs).map (· + 1)

/-- Years listed in a year row:
`[year for year in row if isinstance(year, (int, float)) and not pd.isna(year)]`
followed by `sorted(list(set(years)))`. -/
def sortedYears (r : Row) : List ℚ :=
  List.insertionSort (· ≤ ·)
    ((r.filterMap (fun c => match c with | .num q => some q | _ => none)).dedup)

/-- View returned by the scan-style cleaning functions
(`data_rows, year_row_data, years`), together with the located index of
the year row. -/
structure CleanScanResult where
  yearRowIdx : Nat
  dataRows : Grid
  yearRowData : Row
  years : List ℚ
  deriving DecidableEq, Repr

/-- Embedding of `clean_mineral_supply_data` (analysis_table_2.py):
drop all-NaN rows and columns, locate the first row containing the
literal 2023 (raising `ValueError` when there is none), and keep the
non-empty rows after it as the data rows. -/
def clean_mineral_supply_data (g : Grid) : Except String CleanScanResult :=
  let df := dropnaAll g
  match firstIdx? (fun r => r.any Cell.is2023) df with
  | none => .error "Could not find year row with 2023"
  | some yearRow =>
    let yearRowData := df.getD yearRow []
    let dataRows := dropEmptyRows (df.drop (yearRow + 1))
    .ok ⟨yearRow, dataRows, yearRowData, sortedYears yearRowData⟩

/-- Embedding of `clean_demand_scenario_data` (analysis_table_3_1.py);
its body is textually identical to `clean_mineral_supply_data`, so the
embedding reuses that definition. -/
def clean_demand_scenario_data (g : Grid) : Except String CleanScanResult :=
  clean_mineral_supply_data g

/-- Claim-side counterpart of the cleaning step, written from the
specification's words alone: drop rows/columns that are entirely NaN,
select as year row the first remaining row containing the literal 2023,
fail when no row contains 2023, and let the rows after the year row,
minus fully-empty ones, be the data rows. -/
def specCleanScan (g : Grid) : Except String CleanScanResult :=
  let remaining := dropnaAll g
  match firstIdx? (fun r => r.any Cell.is2023) remaining with
  | none => .error "Could not find year row with 2023"
  | some yearRow =>
    .ok ⟨yearRow, dropEmptyRows (remaining.drop (yearRow + 1)),
         remaining.getD yearRow [], sortedYears (remaining.getD yearRow [])⟩

/-- Detection of the scenario header row in `clean_mineral_demand_data`:
`df[df.iloc[:, 2].str.contains('scenario', na=False)]` — a case-sensitive
substring test on column 2, `False` on non-string cells. -/
def scenarioCellAt2 (r : Row) : Bool :=
  match r.getD 2 Cell.empty with
  | .str s => strContains "scenario" s
  | _ => false

/-- Detection of the year row in `clean_mineral_demand_data`:
`df[df.iloc[:, 1] == 2023]` — the cell in column 1 must equal 2023. -/
def demandYearCell (r : Row) : Bool :=
  (r.getD 1 Cell.empty).is2023

/-- The test `pd.notna(cell_value) and 'scenario' in str(cell_value).lower()`
of the scenario-mapping loop.  Only string cells can pass it (the string
form of a float never contains the letters `scenario`), and the matching
cell value itself becomes the scenario name. -/
def cellScenarioLower : Cell → Option String
  | .str s => if strContains "scenario" (pyLower s) then some s else none
  | _ => none

/-- The scenario-to-columns loop of `clean_mineral_demand_data`
(lines 56-63): walking the columns from 1, a cell containing `scenario`
starts a new scenario, and every column whose year-row cell is non-NaN is
appended to the current scenario's column list.  The accumulator holds
the scenario currently being extended. -/
def scanScenarioCols (srow yrow : Row) : List Nat → Option (String × List Nat) → List (String × List Nat)
  | [], current => current.toList
  | c :: rest, current =>
    match cellScenarioLower (srow.getD c Cell.empty) with
    | some s =>
      let started : String × List Nat :=
        if !(yrow.getD c Cell.empty).isNa then (s, [c]) else (s, [])
      current.toList ++ scanScenarioCols srow yrow rest (some started)
    | none =>
      match current with
      | none => scanScenarioCols srow yrow rest none
      | some cur =>
        let cur :=
          if !(yrow.getD c Cell.empty).isNa then (cur.1, cur.2 ++ [c]) else cur
        scanScenarioCols srow yrow rest (some cur)

/-- Column labels `f"{scenario}_{int(year)}"` for one scenario's columns;
`int(year)` raises (here: errors) when the year cell cannot be converted. -/
def scenarioYearLabels (s : String) (yrow : Row) (cs : List Nat) : Except String (List String) :=
  cs.mapM (fun c =>
    match cellPyInt? (yrow.getD c Cell.empty) with
    | some i => Except.ok (s ++ "_" ++ toString i)
    | none => Except.error "invalid literal for int()")

/-- All column labels of `df_clean`: `Category`, then per scenario the
shared `{scenario}_2023` column followed by that scenario's own year
columns. -/
def demandLabels (yrow : Row) (scols : List (String × List Nat)) : Except String (List String) :=
  (scols.mapM (fun p =>
      (scenarioYearLabels p.1 yrow p.2).map (fun ls => (p.1 ++ "_2023") :: ls))).map
    (fun lss => "Category" :: lss.flatten)

/-- One row of `df_clean`: the `Category` cell, then per scenario the
shared base-year cell followed by the cells of that scenario's columns. -/
def demandCleanRow (baseCol : Nat) (scols : List (String × List Nat)) (r : Row) : Row :=
  r.getD 0 Cell.empty ::
    (scols.map (fun p => r.getD baseCol Cell.empty :: p.2.map (fun c => r.getD c Cell.empty))).flatten

/-- View returned by `clean_mineral_demand_data`: the reshaped table and
the bookkeeping the later stages need. -/
structure DemandCleanResult where
  scenarioRowIdx : Nat
  yearRowIdx : Nat
  baseYearCol : Nat
  scenarios : List String
  scenarioCols : List (String × List Nat)
  colLabels : List String
  cleanRows : Grid
  dataRows : Grid
  deriving DecidableEq, Repr

/-- Embedding of `clean_mineral_demand_data` (analysis_table_1.py): drop
all-NaN rows and columns, locate the scenario header row (first row whose
column-2 cell contains `scenario`) and the year row (first row whose
column-1 cell equals 2023) — each lookup raising `IndexError` when it
finds nothing — take the first column of the year row equal to 2023 as
the shared base-year column, keep the non-empty rows after the year row
as data rows, and reshape them into `Category` plus per-scenario columns. -/
def clean_mineral_demand_data (g : Grid) : Except String DemandCleanResult :=
  let df := dropnaAll g
  match firstIdx? scenarioCellAt2 df with
  | none => .error "IndexError: no scenario row"
  | some srIdx =>
    match firstIdx? demandYearCell df with
    | none => .error "IndexError: no year row"
    | some yrIdx =>
      let srow := df.getD srIdx []
      let yrow := df.getD yrIdx []
      match firstIdx? Cell.is2023 yrow with
      | none => .error "IndexError: no base year column"
      | some baseCol =>
        let dataRows := dropEmptyRows (df.drop (yrIdx + 1))
        let scols := scanScenarioCols srow yrow ((List.range (gridWidth df)).drop 1) none
        match demandLabels yrow scols with
        | .error e => .error e
        | .ok labels =>
          .ok ⟨srIdx, yrIdx, baseCol, scols.map Prod.fst, scols, labels,
               dataRows.map (demandCleanRow baseCol scols), dataRows⟩

/-- Test of `any(pd.to_numeric(row.iloc[1:], errors='coerce').notna())`:
does the row hold any numeric value outside the `Category` column. -/
def rowHasNumeric (r : Row) : Bool :=
  (r.drop 1).any (fun c => (toNumeric c).isSome)

/-- The grouping loop of `analyze_mineral_data` (analysis_table_1.py
lines 89-112): a non-NaN `Category` cell on a row without numeric values
opens a new mineral section (flushing the previous one when it collected
data rows), and rows with numeric values are collected under the current
mineral. -/
def analyzeMineralRows : List Row → Option Cell → Grid → List (Cell × Grid)
  | [], current, data =>
    match current with
    | some m => if !data.isEmpty then [(m, data)] else []
    | none => []
  | r :: rest, current, data =>
    let category := r.getD 0 Cell.empty
    if !category.isNa && !rowHasNumeric r then
      (match current with
       | some m => if !data.isEmpty then [(m, data)] else []
       | none => []) ++ analyzeMineralRows rest (some category) []
    else if current.isSome && rowHasNumeric r then
      analyzeMineralRows rest current (data ++ [r])
    else
      analyzeMineralRows rest current data

/-- Embedding of `analyze_mineral_data`: group the cleaned table's rows
into per-mineral tables. -/
def analyze_mineral_data (table : Grid) : List (Cell × Grid) :=
  analyzeMineralRows table none []

/-- Position of a column label (`col in df.columns` / `df[col]`). -/
def colIdx? (labels : List String) (l : String) : Option Nat :=
  firstIdx? (fun x => x == l) labels

/-- Cells of a labelled column of a per-mineral table (all mineral tables
share `df_clean`'s column labels). -/
def getColCells (labels : List String) (rows : Grid) (l : String) : List Cell :=
  match colIdx? labels l with
  | some j => rows.map (fun r => r.getD j Cell.empty)
  | none => []

/-- One record of the per-scenario summary sheet built by
`save_to_excel` in analysis_table_1.py (the CAGR column is handled by
`summaryCagr` below, since its value lives in ℝ). -/
structure SummaryRow where
  mineral : Cell
  total2023 : ℚ
  total2050 : ℚ
  growthRate : Option ℚ
  deriving DecidableEq, Repr

/-- The summary-record loop of `save_to_excel` (analysis_table_1.py
lines 121-144): for each mineral whose table has both the
`{scenario}_2023` and `{scenario}_2050` columns, sum the two columns and
attach the growth rate.  `pd.to_numeric(...).sum()` never returns `NaN`
(an all-NaN column sums to 0.0), so the source's guard
`pd.notna(total_2023) and total_2023 != 0` reduces to `total_2023 != 0`;
on a zero total both derived quantities are `NaN` (`none`). -/
def summary_rows (labels : List String) (minerals : List (Cell × Grid)) (scenario : String) :
    List SummaryRow :=
  minerals.filterMap (fun p =>
    if (colIdx? labels (scenario ++ "_2023")).isSome &&
       (colIdx? labels (scenario ++ "_2050")).isSome then
      let t23 := nansum (getColCells labels p.2 (scenario ++ "_2023"))
      let t50 := nansum (getColCells labels p.2 (scenario ++ "_2050"))
      some ⟨p.1, t23, t50, if t23 ≠ 0 then some ((t50 - t23) / t23 * 100) else none⟩
    else none)

/-- The CAGR entry of the same record (lines 129-134), read in exact real
arithmetic: `(((total_2050/total_2023)**(1/27)) - 1) * 100` when the 2023
total is nonzero, `NaN` (`none`) otherwise. -/
noncomputable def summaryCagr (labels : List String) (rows : Grid) (scenario : String) : Option ℝ :=
  let t23 := nansum (getColCells labels rows (scenario ++ "_2023"))
  let t50 := nansum (getColCells labels rows (scenario ++ "_2050"))
  if t23 ≠ 0 then some ((((t50 : ℝ) / (t23 : ℝ)) ^ ((1 : ℝ) / 27) - 1) * 100) else none

/-- Sort key of `sort_values('Growth_Rate_%', ...)` (rows reaching the
sort all carry a present growth rate). -/
def growthKey (r : SummaryRow) : ℚ :=
  r.growthRate.getD 0

/-- Descending order on summary rows, the order of
`sort_values('Growth_Rate_%', ascending=False)`. -/
def summaryGE (a b : SummaryRow) : Prop :=
  growthKey b ≤ growthKey a

instance : DecidableRel summaryGE :=
  fun a b => inferInstanceAs (Decidable (growthKey b ≤ growthKey a))

instance : IsTotal SummaryRow summaryGE :=
  ⟨fun a b => le_total (growthKey b) (growthKey a)⟩

instance : IsTrans SummaryRow summaryGE :=
  ⟨fun _ _ _ h1 h2 => le_trans h2 h1⟩

/-- Lines 154-156 of analysis_table_1.py: drop the rows whose growth rate
is `NaN`, then sort by `Growth_Rate_%` in descending order. -/
def finalSummary (labels : List String) (minerals : List (Cell × Grid)) (scenario : String) :
    List SummaryRow :=
  List.insertionSort summaryGE
    ((summary_rows labels minerals scenario).filter (fun r => r.growthRate.isSome))

/-- One entry of `mining_data`/`refining_data` in analysis_table_2.py: a
country name with its per-year values. -/
structure SupplyEntry where
  country : String
  vals : List (String × ℚ)
  deriving DecidableEq, Repr

/-- First row of the sub-frame selected by
`df[df['Country'] == country]`. -/
def lookupEntry (l : List SupplyEntry) (c : String) : Option SupplyEntry :=
  l.find? (fun e => e.country == c)

/-- The per-year column collection of `process_metal_data`: for each
year, keep `{kind}_{int(year)}` when the matched row carries it. -/
def entryCols (kind : String) (years : List ℚ) (e : SupplyEntry) : List (String × ℚ) :=
  years.filterMap (fun y =>
    let col := kind ++ toString (pyTrunc y)
    (e.vals.find? (fun p => p.1 == col)).map (fun p => (col, p.2)))

/-- Embedding of `process_metal_data` (analysis_table_2.py lines
134-186): mining countries keep their original order, countries that
appear only in the refining data are appended at the end in their
original order, and each listed country's row merges the first matching
mining and refining entries. -/
def process_metal_data (mining refining : List SupplyEntry) (years : List ℚ) :
    List SupplyEntry :=
  let mining_countries := mining.map (fun e => e.country)
  let refining_countries := refining.map (fun e => e.country)
  let additional_countries := refining_countries.filter (fun c => !mining_countries.contains c)
  let all_countries := mining_countries ++ additional_countries
  all_countries.map (fun c =>
    let mvals :=
      match (if mining_countries.contains c then lookupEntry mining c else none) with
      | some e => entryCols "Mining_" years e
      | none => []
    let rvals :=
      match (if refining_countries.contains c then lookupEntry refining c else none) with
      | some e => entryCols "Refining_" years e
      | none => []
    ⟨c, mvals ++ rvals⟩)

/-- The technology section headers of analysis_table_4_1.py. -/
def techSectionNames : List String :=
  ["Base case", "Comeback of high Cd-Te technology",
   "Wider adoption of Ga-As technology", "Wider adoption of perovskite solar cells"]

/-- The scenario names hard-coded in `clean_solar_data`
(analysis_table_4_1.py lines 23-27). -/
def solarScenarios : List String :=
  ["Stated Policies scenario", "Announced Pledges scenario",
   "Net Zero Emissions by 2050 scenario"]

/-- The material names captured by `clean_solar_data` (lines 56-60). -/
def solarMaterials : List String :=
  ["Cadmium", "Copper", "Gallium", "Germanium", "Indium", "Lead",
   "Molybdenum", "Nickel", "Selenium", "Silicon", "Silver",
   "Tellurium", "Tin", "Zinc", "Arsenic"]

/-- Substring test `needle in str(cell)`: only string cells can contain
the section names (the string form of a float is digits and dots). -/
def cellStrContains (needle : String) : Cell → Bool
  | .str s => strContains needle s
  | _ => false

/-- Last index satisfying a predicate — the effect of repeated dict
assignment `tech_sections[tech] = idx` in a forward scan. -/
def lastIdx? {α : Type} (p : α → Bool) (l : List α) : Option Nat :=
  (l.foldl (fun (acc : Option Nat × Nat) x =>
    (if p x then some acc.2 else acc.1, acc.2 + 1)) (none, 0)).1

/-- Section start indices of `clean_solar_data` (lines 38-42): for each
known technology, the last row whose first cell is non-NaN and contains
the technology name. -/
def solarSectionStarts (df : Grid) : List (String × Option Nat) :=
  techSectionNames.map (fun t =>
    (t, lastIdx? (fun r =>
      !(r.getD 0 Cell.empty).isNa && cellStrContains t (r.getD 0 Cell.empty)) df))

/-- Section `(name, start, end)` triples (lines 45-51): a found section
runs to the next technology's start (to the end of the frame when the
next technology was not found, mirroring a `None` slice bound). -/
def solarSectionIndices (df : Grid) : List (String × Nat × Nat) :=
  let starts := solarSectionStarts df
  (List.range starts.length).filterMap (fun i =>
    match (starts.getD i ("", none)).2 with
    | none => none
    | some st =>
      let en :=
        if i < starts.length - 1 then ((starts.getD (i + 1) ("", none)).2).getD df.length
        else df.length
      some ((starts.getD i ("", none)).1, st, en))

/-- The per-section year-row search (lines 70-74):
`pd.notna(row.iloc[1]) and row.iloc[1] == 2023`. -/
def sectionYearRowIdx (sect : Grid) : Option Nat :=
  firstIdx? (fun r => !(r.getD 1 Cell.empty).isNa && (r.getD 1 Cell.empty).is2023) sect

/-- Assoc update with dict semantics: a later assignment to the same key
overwrites the earlier one. -/
def assocSet (l : List (Int × Nat)) (k : Int) (v : Nat) : List (Int × Nat) :=
  if l.any (fun p => p.1 == k) then l.map (fun p => if p.1 == k then (k, v) else p)
  else l ++ [(k, v)]

/-- The year-to-column map of `clean_solar_data` (lines 83-86):
`year_cols[int(year_row[col])] = col` over all columns, so for a repeated
year the LAST column bearing it wins. -/
def yearColsOf (yearRow : Row) : List (Int × Nat) :=
  yearRow.enum.foldl (fun acc p =>
    match p.2 with
    | .num q => assocSet acc (pyTrunc q) p.1
    | _ => acc) []

/-- Lookup in the year-to-column map; `none` is a Python `KeyError`. -/
def lookupYearCol (yc : List (Int × Nat)) (y : Int) : Option Nat :=
  (yc.find? (fun p => p.1 == y)).map (fun p => p.2)

/-- Row-cell lookup by field name in a built record. -/
def lookupField (l : List (String × Cell)) (k : String) : Option Cell :=
  (l.find? (fun p => p.1 == k)).map (fun p => p.2)

/-- One scenario's slice of a material record in `clean_solar_data`
(lines 103-110): the 2023 base value is shared across the three
scenarios, and for 2030-2050 the value of `row.iloc[year_cols[year]]` is
stored under `{scenario}_{year}` — the column index does not depend on
the scenario. -/
def solarScenarioPart (yc : List (Int × Nat)) (row : Row) (c23 : Nat) (s : String) :
    Except String (List (String × Cell)) :=
  (([2030, 2035, 2040, 2045, 2050] : List Int).mapM (fun y =>
    match lookupYearCol yc y with
    | none => (Except.error "KeyError: year" : Except String (String × Cell))
    | some cy => Except.ok (s ++ "_" ++ toString y, row.getD cy Cell.empty))).map
    (fun rest => (s ++ "_2023", row.getD c23 Cell.empty) :: rest)

/-- One material record of `clean_solar_data` (lines 96-112), assembled
from the per-scenario parts above. -/
def solarRowData (yc : List (Int × Nat)) (material : String) (row : Row) :
    Except String (List (String × Cell)) :=
  match lookupYearCol yc 2023 with
  | none => .error "KeyError: 2023"
  | some c23 =>
    (solarScenarios.mapM (solarScenarioPart yc row c23)).map
      (fun parts => ("Category", Cell.str material) :: parts.flatten)

/-- The material name test `str(row.iloc[0]).strip() if pd.notna(...)`:
only a string cell can name one of the captured materials. -/
def cellMaterialName : Cell → String
  | .str s => pyStrip s
  | _ => ""

/-- Processing of one technology section (lines 65-115): skip the section
when it has no year row, otherwise collect records for the rows naming a
captured material. -/
def processSolarSection (sect : Grid) :
    Except String (Option (List (List (String × Cell)))) :=
  match sectionYearRowIdx sect with
  | none => .ok none
  | some yi =>
    let yc := yearColsOf (sect.getD yi [])
    (((sect.drop (yi + 1)).filterMap (fun r =>
        let m := cellMaterialName (r.getD 0 Cell.empty)
        if solarMaterials.contains m then some (m, r) else none)).mapM
      (fun p => solarRowData yc p.1 p.2)).map some

/-- Embedding of `clean_solar_data` (analysis_table_4_1.py): drop all-NaN
rows and columns, find the technology sections, and build the per-section
material records. -/
def clean_solar_data (g : Grid) :
    Except String (List (String × List (List (String × Cell)))) :=
  let df := dropnaAll g
  ((solarSectionIndices df).mapM (fun x =>
      (processSolarSection ((df.drop x.2.1).take (x.2.2 - x.2.1))).map
        (fun o => (x.1, o)))).map
    (fun l => l.filterMap (fun p => p.2.map (fun rows => (p.1, rows))))

/-- A pandas float value: a finite number, a signed infinity, or `NaN`.
Needed where the dashboard divides by a possibly-zero baseline. -/
inductive PVal
  | num (q : ℚ)
  | inf (pos : Bool)
  | nan
  deriving DecidableEq, Repr

/-- Pandas/numpy elementwise division, including division by zero. -/
def pvDiv : PVal → PVal → PVal
  | .num a, .num b =>
    if b = 0 then (if a > 0 then .inf true else if a < 0 then .inf false else .nan)
    else .num (a / b)
  | .num _, .inf _ => .num 0
  | .inf p, .num b => if b < 0 then .inf (!p) else .inf p
  | .inf _, .inf _ => .nan
  | _, .nan => .nan
  | .nan, _ => .nan

/-- Pandas/numpy elementwise subtraction. -/
def pvSub : PVal → PVal → PVal
  | .num a, .num b => .num (a - b)
  | .inf p, .num _ => .inf p
  | .num _, .inf p => .inf (!p)
  | .inf p, .inf q => if p = q then .nan else .inf p
  | _, .nan => .nan
  | .nan, _ => .nan

/-- Pandas/numpy elementwise multiplication. -/
def pvMul : PVal → PVal → PVal
  | .num a, .num b => .num (a * b)
  | .inf p, .num b => if b = 0 then .nan else if b > 0 then .inf p else .inf (!p)
  | .num a, .inf p => if a = 0 then .nan else if a > 0 then .inf p else .inf (!p)
  | .inf p, .inf q => .inf (p == q)
  | _, .nan => .nan
  | .nan, _ => .nan

/-- Line 380 of streamlit_app.py (Table 3.2 page):
`growth_rates = ((df['2050'] / df[base_year]) - 1) * 100`, evaluated on
one row with pandas float semantics; there is no zero-baseline guard. -/
def growth_rates_32 (base v2050 : PVal) : PVal :=
  pvMul (pvSub (pvDiv v2050 base) (.num 1)) (.num 100)

/-- The growth column of the Table 3.2 page's `df_sorted`
(lines 380-384) before sorting: the rate is computed for every row,
zero-baseline rows included. -/
def table32TopGrowth (rows : List (String × PVal × PVal)) : List (String × PVal) :=
  rows.map (fun r => (r.1, growth_rates_32 r.2.1 r.2.2))

/-- The `((v / b) - 1) * 100` variant on finite values (line 380). -/
def growthVariantA (b v : ℚ) : ℚ :=
  (v / b - 1) * 100

/-- The `((v - b) / b) * 100` variant (lines 705 and 957). -/
def growthVariantB (b v : ℚ) : ℚ :=
  (v - b) / b * 100

/-- What a dashboard growth block renders: either a list of per-scenario
rates or a fallback message. -/
inductive GrowthOutput
  | rates (l : List (String × ℚ))
  | zeroMessage (msg : String)
  deriving DecidableEq, Repr

/-- The three scenario names of the dashboard pages (streamlit_app.py
line 145 and the loops at lines 704 and 956). -/
def scenarioTriple : List String :=
  ["Stated Policies", "Announced Pledges", "Net Zero"]

/-- Lines 952-963 (Table 4.6 page): growth rates are written for a
nonzero baseline; a zero baseline yields one of two fallback messages. -/
def growthSection46 (base : ℚ) (proj : String → ℚ) : GrowthOutput :=
  if base ≠ 0 then
    .rates (scenarioTriple.map (fun s => (s, (proj s - base) / base * 100)))
  else if scenarioTriple.any (fun s => proj s > 0) then
    .zeroMessage "Growth from zero baseline - infinite growth rate"
  else
    .zeroMessage "No demand in baseline or projections"

/-- Lines 700-707 (Table 4.4 page): for a nonzero baseline the loop
computes the growth but never writes it (the rendered list is empty); a
zero baseline yields the fallback message. -/
def growthSection44 (base : ℚ) (_proj : String → ℚ) : GrowthOutput :=
  if base ≠ 0 then .rates []
  else .zeroMessage "Growth rates not available (zero base value)"

/-- Streamlit session state: the login flag and the text-input values
stored under the `username`/`password` keys. -/
structure SessionState where
  logged_in : Bool
  username : Option String
  password : Option String
  deriving DecidableEq, Repr

/-- Embedding of `password_entered` (streamlit_app.py lines 60-67), run
when Log In is pressed with entered strings `u` and `p`: on a match the
session is marked logged in and both keys are deleted; otherwise
`logged_in` is set to `False` (the entered values stay in the session). -/
def password_entered (u p : String) (_s : SessionState) : SessionState :=
  if pyStrip u == "mineral_analysis" && pyStrip p == "z1x2c3v4b5" then
    ⟨true, none, none⟩
  else
    ⟨false, some u, some p⟩

/-- Embedding of `check_password` (lines 69-80): `True` exactly when the
session is logged in; otherwise the login form is rendered and `False`
is returned. -/
def check_password (s : SessionState) : Bool :=
  s.logged_in

/-- Line 83: every dashboard page is rendered only behind
`if check_password():`. -/
def dashboardRenders (s : SessionState) : Bool :=
  check_password s

/-- The characters removed by the regex of `clean_sheet_name`:
`re.sub(r'[\\/*?:\[\]]', '', ...)`. -/
def invalidSheetChars : List Char :=
  ['\\', '/', '*', '?', ':', '[', ']']

/-- Embedding of `clean_sheet_name` (identical in analysis_table_1.py,
analysis_table_2.py, analysis_table_3_1.py, analysis_table_4_1.py):
remove the invalid Excel characters, remove parentheses, strip, and keep
at most 31 characters. -/
def clean_sheet_name (name : String) : String :=
  let noInvalid := name.data.filter (fun c => !invalidSheetChars.contains c)
  let noParens := noInvalid.filter (fun c => c ≠ '(' && c ≠ ')')
  String.mk ((stripChars noParens).take 31)

/-- String form of a cell as used where a cell value becomes a sheet
name (`clean_sheet_name(str(mineral))`); the float formatting differs
from Python's but the sheet-name invariants do not depend on it. -/
def cellStr : Cell → String
  | .str s => s
  | .num q => toString q
  | .empty => "nan"

/-- The sheet names written by `save_to_excel` in analysis_table_1.py
(lines 115-175): the `Overview` sheet, one `Summary_{scenario}` sheet per
scenario whose summary survives the NaN drop, and one sheet per
non-empty mineral table. -/
def table1SheetNames (labels : List String) (minerals : List (Cell × Grid))
    (scenarios : List String) : List String :=
  "Overview" ::
    ((scenarios.filter (fun s => !(finalSummary labels minerals s).isEmpty)).map
      (fun s => clean_sheet_name ("Summary_" ++ s)) ++
     (minerals.filter (fun p => !p.2.isEmpty)).map (fun p => clean_sheet_name (cellStr p.1)))

/-- The metal order hard-coded in `save_to_excel` of
analysis_table_3_1.py (lines 167-182). -/
def metalOrder31 : List String :=
  ["Chromium", "Copper", "Cobalt", "Battery-grade graphite", "Lithium",
   "Manganese", "Molybdenum", "Nickel", "PGMs", "Silicon", "Silver",
   "Zinc", "Neodymium"]

/-- The sheet names written by `save_to_excel` in analysis_table_3_1.py
(lines 184-208): `clean_sheet_name(f"{metal}_{scenario}")` for every
non-empty per-scenario table, metals taken in the hard-coded order. -/
def t31SheetNames (scenario_data : List (String × List (String × Grid))) : List String :=
  (metalOrder31.filterMap (fun m =>
    (scenario_data.find? (fun p => p.1 == m)).map (fun p =>
      (p.2.filter (fun q => !q.2.isEmpty)).map
        (fun q => clean_sheet_name (m ++ "_" ++ q.1))))).flatten

/-- The scenario keys of `scenario_ranges` in analysis_table_3_1.py
(lines 58-62) and analysis_table_3_2.py (lines 56-60). -/
def scenarioRangesKeys : List String :=
  ["Stated Policies", "Announced Pledges", "Net Zero"]

/-- The per-scenario column ranges of `scenario_ranges`
(analysis_table_3_1.py lines 58-62). -/
def scenario_ranges : List (String × Nat × Nat) :=
  [("Stated Policies", 1, 6), ("Announced Pledges", 7, 11), ("Net Zero", 12, 16)]

/-- The column indices a scenario's range covers in `create_scenario_df`
(`col_indices = range(start_col, end_col + 1)`). -/
def scenarioColIndices (start stop : Nat) : List Nat :=
  List.range' start (stop + 1 - start)

/-- The scenario list of the dashboard's Table 1 page
(streamlit_app.py line 145). -/
def streamlitTable1Scenarios : List String :=
  ["Stated Policies", "Announced Pledges", "Net Zero"]

/-- The glossary's three scenario names, the claim-side list. -/
def threeScenarioNames : List String :=
  ["Stated Policies", "Announced Pledges", "Net Zero"]

/-- The full scenario titles the source workbook and
analysis_table_4_1.py use. -/
def fullScenarioTitles : List String :=
  ["Stated Policies scenario", "Announced Pledges scenario",
   "Net Zero Emissions by 2050 scenario"]

/-- A raised Python exception, coarsely: a missing file or anything
else. -/
inductive PyExc
  | fileNotFound (path : String)
  | other (msg : String)
  deriving DecidableEq, Repr

def pyExcMsg : PyExc → String
  | .fileNotFound p => "FileNotFoundError: " ++ p
  | .other m => m

/-- The module-level handler around `save_to_excel` in
analysis_table_1.py lines 181-185 (analysis_table_2.py lines 266-270 and
analysis_table_3_1.py lines 217-221 are identical up to the file names):
given the outcome of the save, it returns what is printed and the
module's final outcome.  On an exception a message is printed and the
module then ends normally — the exception is NOT re-raised. -/
def save_wrapper_table1 (result : Except PyExc Unit) : List String × Except PyExc Unit :=
  match result with
  | .ok _ => (["Analysis complete! Data saved to 'organized_mineral_demand.xlsx'"], .ok ())
  | .error e => (["Error saving Excel file: " ++ pyExcMsg e], .ok ())

/-- The exception handling of `load_data` in analysis_table_1_visuals.py
(lines 34-83): a missing file prints two messages and re-raises; any
other exception prints its details and re-raises. -/
def load_data_wrapper (result : Except PyExc Unit) : List String × Except PyExc Unit :=
  match result with
  | .ok v => ([], .ok v)
  | .error (.fileNotFound f) =>
    (["Error: Could not find " ++ f,
      "Please run analysis_table_1.py first to generate this file."],
     .error (.fileNotFound f))
  | .error (.other m) =>
    (["Error reading Excel file: " ++ m], .error (.other m))

/-- The property the specification asserts of a top-level handler: every
error is propagated (re-raised or aborts the script). -/
def handlerReRaises (h : Except PyExc Unit → List String × Except PyExc Unit) : Prop :=
  ∀ e, (h (.error e)).2 = .error e

/-- The whole of analysis_table_1.py run on one input workbook sheet
(lines 177-185): clean, group into minerals, and build every scenario's
dropped-and-sorted summary.  A pure function of the input grid. -/
def run_table_1 (g : Grid) :
    Except String (DemandCleanResult × List (Cell × Grid) × List (String × List SummaryRow)) :=
  (clean_mineral_demand_data g).map (fun dc =>
    let md := analyze_mineral_data dc.cleanRows
    (dc, md, dc.scenarios.map (fun s => (s, finalSummary dc.colLabels md s))))

/-- The `main()` of analysis_table_4_1.py up to its parsed tables: a pure
function of the input grid. -/
def run_table_4_1 (g : Grid) :
    Except String (List (String × List (List (String × Cell)))) :=
  clean_solar_data g

/-- Concrete grid refuting the uniform year-row rule of claim C1: after
NaN-dropping, row 1 is the first row containing the literal 2023 (in
column 2), yet `clean_mineral_demand_data` selects row 2, the first row
whose COLUMN-1 cell equals 2023. -/
def demandYearRowGrid : Grid :=
  [[Cell.str "t", Cell.str "x", Cell.str "Stated Policies scenario"],
   [Cell.str "a", Cell.str "b", Cell.num 2023],
   [Cell.str "hdr", Cell.num 2023, Cell.num 2030],
   [Cell.str "Copper", Cell.num 1, Cell.num 2]]

/-- Year row of the failing solar input for claim C2: the year 2030
(and 2035-2050) appears once in the Stated Policies block (columns 2-6)
and once in the last block (columns 7-11). -/
def solarBugYearRow : Row :=
  [Cell.str "Material", Cell.num 2023, Cell.num 2030, Cell.num 2035,
   Cell.num 2040, Cell.num 2045, Cell.num 2050, Cell.num 2030,
   Cell.num 2035, Cell.num 2040, Cell.num 2045, Cell.num 2050]

/-- Material row of the failing solar input: the Stated Policies block
holds 10-14, the last block holds 20-24. -/
def solarBugDataRow : Row :=
  [Cell.str "Copper", Cell.num 1, Cell.num 10, Cell.num 11, Cell.num 12,
   Cell.num 13, Cell.num 14, Cell.num 20, Cell.num 21, Cell.num 22,
   Cell.num 23, Cell.num 24]

/-- The result `clean_mineral_supply_data` computes on
`demandYearRowGrid` (used to instantiate universally quantified
theorems at a concrete input). -/
def c1SupplyRes : CleanScanResult :=
  ⟨1,
   [[Cell.str "hdr", Cell.num 2023, Cell.num 2030],
    [Cell.str "Copper", Cell.num 1, Cell.num 2]],
   [Cell.str "a", Cell.str "b", Cell.num 2023],
   [2023]⟩

/-- The result `clean_mineral_demand_data` computes on
`demandYearRowGrid`. -/
def c1DemandRes : DemandCleanResult :=
  ⟨0, 2, 1, ["Stated Policies scenario"],
   [("Stated Policies scenario", [2])],
   ["Category", "Stated Policies scenario_2023", "Stated Policies scenario_2030"],
   [[Cell.str "Copper", Cell.num 1, Cell.num 2]],
   [[Cell.str "Copper", Cell.num 1, Cell.num 2]]⟩

/-! ## Helper lemmas -/

/-- Characterisation of `firstIdx?`: a returned index points at a row
satisfying the predicate and every earlier row fails it. -/
theorem firstIdx?_eq_some {α : Type} (p : α → Bool) :
    ∀ (l : List α) (i : Nat), firstIdx? p l = some i →
      (∃ x, l[i]? = some x ∧ p x = true) ∧
      ∀ j, j < i → ∀ x, l[j]? = some x → p x = false := by
  intro l
  induction l with
  | nil => intro i h; simp [firstIdx?] at h
  | cons x xs ih =>
    intro i h
    by_cases hp : p x
    · simp [firstIdx?, hp] at h
      subst h
      exact ⟨⟨x, by simp, hp⟩, fun j hj => absurd hj (Nat.not_lt_zero j)⟩
    · simp [firstIdx?, hp] at h
      obtain ⟨i', hi', rfl⟩ := h
      obtain ⟨⟨y, hy, hpy⟩, hbefore⟩ := ih i' hi'
      refine ⟨⟨y, by simpa using hy, hpy⟩, ?_⟩
      intro j hj z hz
      cases j with
      | zero =>
        simp at hz
        simp [← hz, hp]
      | succ j' =>
        exact hbefore j' (Nat.lt_of_succ_lt_succ hj) z (by simpa using hz)

/-- Compound-rate reading of the CAGR formula: growing 27 times by the
yearly factor recovers the total ratio. -/
theorem cagr_compound (x : ℝ) (hx : 0 ≤ x) :
    (1 + ((x ^ ((1 : ℝ) / 27) - 1) * 100) / 100) ^ (27 : ℕ) = x := by
  have h1 : (1 + ((x ^ ((1 : ℝ) / 27) - 1) * 100) / 100) = x ^ ((1 : ℝ) / 27) := by
    ring
  rw [h1, ← Real.rpow_natCast (x ^ ((1 : ℝ) / 27)) 27, ← Real.rpow_mul hx]
  norm_num

/-- Stripping only removes characters. -/
theorem stripChars_subset {c : Char} {l : List Char} (h : c ∈ stripChars l) : c ∈ l := by
  unfold stripChars at h
  rw [List.mem_reverse] at h
  have h2 := (List.dropWhile_sublist isPySpace).subset h
  rw [List.mem_reverse] at h2
  exact (List.dropWhile_sublist isPySpace).subset h2

/-- Every character surviving `clean_sheet_name` survived both filters. -/
theorem clean_sheet_name_chars (n : String) :
    ∀ c ∈ (clean_sheet_name n).data, ¬ (c ∈ invalidSheetChars ∨ c = '(' ∨ c = ')') := by
  intro c hc
  have h1 : c ∈ stripChars (n.data.filter (fun c => !invalidSheetChars.contains c)
      |>.filter (fun c => c ≠ '(' && c ≠ ')')) := by
    have := (List.take_sublist 31 _).subset hc
    simpa [clean_sheet_name] using this
  have h2 := stripChars_subset h1
  have h3 := List.of_mem_filter h2
  have h4 := List.of_mem_filter ((List.filter_sublist _).subset h2)
  simp at h3 h4
  rintro (hin | rfl | rfl)
  · exact h4 hin
  · exact h3.1 rfl
  · exact h3.2 rfl

/-- A cleaned sheet name never exceeds 31 characters. -/
theorem clean_sheet_name_length (n : String) : (clean_sheet_name n).length ≤ 31 := by
  show (((stripChars _).take 31)).length ≤ 31
  simp

/-- A scenario name produced by `cellScenarioLower` contains the letters
`scenario` case-insensitively. -/
theorem cellScenarioLower_some {c : Cell} {s : String}
    (h : cellScenarioLower c = some s) : strContains "scenario" (pyLower s) = true := by
  cases c with
  | empty => simp [cellScenarioLower] at h
  | num q => simp [cellScenarioLower] at h
  | str t =>
    by_cases hc : strContains "scenario" (pyLower t)
    · simp [cellScenarioLower, hc] at h
      subst h
      exact hc
    · simp [cellScenarioLower, hc] at h

/-- Every scenario name `scanScenarioCols` emits comes from a header cell
containing the letters `scenario` (case-insensitively), provided the one
already in flight does. -/
theorem scanScenarioCols_names (srow yrow : Row) :
    ∀ (cols : List Nat) (current : Option (String × List Nat)),
      (∀ q ∈ current.toList, strContains "scenario" (pyLower q.1) = true) →
      ∀ p ∈ scanScenarioCols srow yrow cols current,
        strContains "scenario" (pyLower p.1) = true := by
  intro cols
  induction cols with
  | nil => intro current hinv p hp; exact hinv p (by simpa [scanScenarioCols] using hp)
  | cons c rest ih =>
    intro current hinv p hp
    cases hsc : cellScenarioLower (srow.getD c Cell.empty) with
    | some s =>
      simp only [scanScenarioCols, hsc, List.mem_append] at hp
      rcases hp with hp | hp
      · exact hinv p hp
      · refine ih _ ?_ p hp
        intro q hq
        simp at hq
        have hq1 : q.1 = s := by rw [hq]; split <;> rfl
        rw [hq1]
        exact cellScenarioLower_some hsc
    | none =>
      simp only [scanScenarioCols, hsc] at hp
      cases current with
      | none => exact ih none (by simp) p hp
      | some cur =>
        refine ih _ ?_ p hp
        intro q hq
        simp at hq
        have hq1 : q.1 = cur.1 := by rw [hq]; split <;> rfl
        rw [hq1]
        exact hinv cur (by simp)

/-- Inversion of a successful `clean_mineral_supply_data` run: the year
row index came out of the 2023 scan and the data rows are the non-empty
rows after it. -/
theorem clean_supply_ok_inv {g : Grid} {rs : CleanScanResult}
    (hs : clean_mineral_supply_data g = .ok rs) :
    firstIdx? (fun r => r.any Cell.is2023) (dropnaAll g) = some rs.yearRowIdx ∧
    rs.dataRows = dropEmptyRows ((dropnaAll g).drop (rs.yearRowIdx + 1)) := by
  cases hfi : firstIdx? (fun r => r.any Cell.is2023) (dropnaAll g) with
  | none => simp [clean_mineral_supply_data, hfi] at hs
  | some i =>
    simp only [clean_mineral_supply_data, hfi] at hs
    injection hs with h
    subst h
    simp [hfi]

/-- Inversion of a successful `clean_mineral_demand_data` run. -/
theorem clean_demand_ok_inv {g : Grid} {rd : DemandCleanResult}
    (hd : clean_mineral_demand_data g = .ok rd) :
    firstIdx? scenarioCellAt2 (dropnaAll g) = some rd.scenarioRowIdx ∧
    firstIdx? demandYearCell (dropnaAll g) = some rd.yearRowIdx ∧
    rd.dataRows = dropEmptyRows ((dropnaAll g).drop (rd.yearRowIdx + 1)) ∧
    rd.scenarios = (scanScenarioCols ((dropnaAll g).getD rd.scenarioRowIdx [])
        ((dropnaAll g).getD rd.yearRowIdx [])
        ((List.range (gridWidth (dropnaAll g))).drop 1) none).map Prod.fst := by
  cases h1 : firstIdx? scenarioCellAt2 (dropnaAll g) with
  | none => simp [clean_mineral_demand_data, h1] at hd
  | some sr =>
    cases h2 : firstIdx? demandYearCell (dropnaAll g) with
    | none => simp [clean_mineral_demand_data, h1, h2] at hd
    | some yr =>
      cases h3 : firstIdx? Cell.is2023 ((dropnaAll g).getD yr []) with
      | none =>
        simp only [clean_mineral_demand_data, h1, h2, h3] at hd
        cases hd
      | some bc =>
        cases h4 : demandLabels ((dropnaAll g).getD yr [])
            (scanScenarioCols ((dropnaAll g).getD sr []) ((dropnaAll g).getD yr [])
              ((List.range (gridWidth (dropnaAll g))).drop 1) none) with
        | error e =>
          simp only [clean_mineral_demand_data, h1, h2, h3, h4] at hd
          cases hd
        | ok labels =>
          simp only [clean_mineral_demand_data, h1, h2, h3, h4] at hd
          injection hd with h
          subst h
          simp [h1, h2]

/-- Claim C1 as stated is false: on `demandYearRowGrid` (after the NaN
drop nothing changes) the first row containing the literal 2023 is row 1,
yet `clean_mineral_demand_data` succeeds with row 2 — the first row whose
COLUMN-1 cell equals 2023 — as its year row. -/
theorem C1_counterexample :
    (clean_mineral_demand_data demandYearRowGrid).toOption.map DemandCleanResult.yearRowIdx
        = some 2 ∧
    firstIdx? (fun r => r.any Cell.is2023) (dropnaAll demandYearRowGrid) = some 1 ∧
    (2 : Nat) ≠ 1 := by
  decide

/-- Amended claim C1: all three parsers first drop all-NaN rows and
columns; `clean_mineral_supply_data` and `clean_demand_scenario_data`
then select the first remaining row containing the literal 2023 anywhere
(matching the claim-side `specCleanScan` exactly) and raise when no row
contains 2023; `clean_mineral_demand_data` instead selects the first
remaining row whose COLUMN-1 cell equals 2023, and fails when no such
row exists; in all three, the rows after the year row, minus fully-empty
rows, become the data rows. -/
theorem C1_amended_theorem (g g2 : Grid) (rs : CleanScanResult) (rd : DemandCleanResult)
    (hs : clean_mineral_supply_data g = .ok rs)
    (hd : clean_mineral_demand_data g2 = .ok rd) :
    (∀ h : Grid, clean_mineral_supply_data h = specCleanScan h ∧
        clean_demand_scenario_data h = specCleanScan h) ∧
    (∃ r, (dropnaAll g)[rs.yearRowIdx]? = some r ∧ r.any Cell.is2023 = true) ∧
    (∀ j, j < rs.yearRowIdx → ∀ r, (dropnaAll g)[j]? = some r → r.any Cell.is2023 = false) ∧
    rs.dataRows = dropEmptyRows ((dropnaAll g).drop (rs.yearRowIdx + 1)) ∧
    (∀ h : Grid, firstIdx? (fun r => r.any Cell.is2023) (dropnaAll h) = none →
      clean_mineral_supply_data h = .error "Could not find year row with 2023") ∧
    (∃ r, (dropnaAll g2)[rd.yearRowIdx]? = some r ∧ demandYearCell r = true) ∧
    (∀ j, j < rd.yearRowIdx → ∀ r, (dropnaAll g2)[j]? = some r → demandYearCell r = false) ∧
    rd.dataRows = dropEmptyRows ((dropnaAll g2).drop (rd.yearRowIdx + 1)) ∧
    (∀ h : Grid, firstIdx? demandYearCell (dropnaAll h) = none →
      ∀ res, clean_mineral_demand_data h ≠ .ok res) := by
  obtain ⟨hfiS, hdataS⟩ := clean_supply_ok_inv hs
  obtain ⟨hsrD, hfiD, hdataD, hscD⟩ := clean_demand_ok_inv hd
  obtain ⟨hexS, hbefS⟩ := firstIdx?_eq_some _ _ _ hfiS
  obtain ⟨hexD, hbefD⟩ := firstIdx?_eq_some _ _ _ hfiD
  refine ⟨fun h => ⟨rfl, rfl⟩, hexS, hbefS, hdataS, ?_, hexD, hbefD, hdataD, ?_⟩
  · intro h hnone
    simp [clean_mineral_supply_data, hnone]
  · intro h hnone res hok
    obtain ⟨_, h2, _, _⟩ := clean_demand_ok_inv hok
    rw [hnone] at h2
    cases h2

/-- Witness: the amended C1 theorem applied on `demandYearRowGrid`. -/
theorem C1_amended_witness :
    clean_mineral_supply_data demandYearRowGrid = Except.ok c1SupplyRes ∧
    c1SupplyRes.dataRows =
      dropEmptyRows ((dropnaAll demandYearRowGrid).drop (c1SupplyRes.yearRowIdx + 1)) ∧
    c1DemandRes.dataRows =
      dropEmptyRows ((dropnaAll demandYearRowGrid).drop (c1DemandRes.yearRowIdx + 1)) := by
  have h := C1_amended_theorem demandYearRowGrid demandYearRowGrid c1SupplyRes c1DemandRes
    (by decide) (by decide)
  exact ⟨by decide, h.2.2.2.1, h.2.2.2.2.2.2.2.1⟩

/-- Claim C2's failing input, evaluated: with the year 2030 present in
the Stated Policies block (column 2, value 10) and again in the last
block (column 7, value 20), `clean_solar_data`'s record construction
stores the LAST 2030 column's value under BOTH scenarios' 2030 fields —
the two scenarios do not read distinct columns, and Stated Policies' own
2030 figure is lost. -/
theorem C2_theorem :
    (solarRowData (yearColsOf solarBugYearRow) "Copper" solarBugDataRow).map
        (fun l => (lookupField l "Stated Policies scenario_2030",
                   lookupField l "Net Zero Emissions by 2050 scenario_2030")) =
      Except.ok (some (Cell.num 20), some (Cell.num 20)) ∧
    lookupYearCol (yearColsOf solarBugYearRow) 2030 = some 7 ∧
    solarBugDataRow.getD 2 Cell.empty = Cell.num 10 ∧
    Cell.num 10 ≠ Cell.num 20 := by
  decide

/-- Claim C3: in the per-scenario summary of analysis_table_1.py's
`save_to_excel`, a mineral with both `{scenario}_2023` and
`{scenario}_2050` columns contributes a record whose growth rate is
`(total_2050 - total_2023)/total_2023 * 100` and whose CAGR is
`((total_2050/total_2023)^(1/27) - 1) * 100` when the 2023 total is
nonzero (the sums are never `NaN`); on a zero 2023 total both are `NaN`
and the record is dropped from the final summary; the final summary is
the NaN-dropped records sorted by growth rate in descending order.  The
CAGR moreover satisfies the compound-rate equation
`(1 + cagr/100)^27 = total_2050/total_2023`. -/
theorem C3_theorem (labels : List String) (minerals : List (Cell × Grid)) (scenario : String)
    (m : Cell) (rows : Grid) (t23 t50 : ℚ)
    (hmem : (m, rows) ∈ minerals)
    (h23 : (colIdx? labels (scenario ++ "_2023")).isSome = true)
    (h50 : (colIdx? labels (scenario ++ "_2050")).isSome = true)
    (ht23 : t23 = nansum (getColCells labels rows (scenario ++ "_2023")))
    (ht50 : t50 = nansum (getColCells labels rows (scenario ++ "_2050"))) :
    (t23 ≠ 0 →
      (⟨m, t23, t50, some ((t50 - t23) / t23 * 100)⟩ : SummaryRow) ∈
        summary_rows labels minerals scenario ∧
      summaryCagr labels rows scenario =
        some ((((t50 : ℝ) / (t23 : ℝ)) ^ ((1 : ℝ) / 27) - 1) * 100)) ∧
    (t23 = 0 →
      (⟨m, t23, t50, none⟩ : SummaryRow) ∈ summary_rows labels minerals scenario ∧
      summaryCagr labels rows scenario = none ∧
      (⟨m, t23, t50, none⟩ : SummaryRow) ∉ finalSummary labels minerals scenario) ∧
    (0 < t23 → 0 ≤ t50 → ∀ c : ℝ, summaryCagr labels rows scenario = some c →
      (1 + c / 100) ^ (27 : ℕ) = (t50 : ℝ) / (t23 : ℝ)) ∧
    List.Sorted summaryGE (finalSummary labels minerals scenario) ∧
    (finalSummary labels minerals scenario).Perm
      ((summary_rows labels minerals scenario).filter (fun r => r.growthRate.isSome)) := by
  refine ⟨?_, ?_, ?_, ?_, ?_⟩
  · intro hne
    constructor
    · refine List.mem_filterMap.mpr ⟨(m, rows), hmem, ?_⟩
      simp only [h23, h50, Bool.and_self, if_true, ← ht23, ← ht50]
      rw [if_pos hne]
    · rw [summaryCagr]
      simp only [← ht23, ← ht50]
      rw [if_pos hne]
  · intro hz
    refine ⟨?_, ?_, ?_⟩
    · refine List.mem_filterMap.mpr ⟨(m, rows), hmem, ?_⟩
      simp only [h23, h50, Bool.and_self, if_true, ← ht23, ← ht50]
      rw [if_neg (by simpa using hz)]
    · rw [summaryCagr]
      simp only [← ht23, ← ht50]
      rw [if_neg (by simpa using hz)]
    · intro hmemF
      have hperm := List.perm_insertionSort summaryGE
        ((summary_rows labels minerals scenario).filter (fun r => r.growthRate.isSome))
      have hmemFil := hperm.mem_iff.mp hmemF
      have := List.of_mem_filter hmemFil
      simp at this
  · intro hpos hnn c hc
    rw [summaryCagr] at hc
    simp only [← ht23, ← ht50] at hc
    rw [if_pos (by positivity)] at hc
    have hx : (0 : ℝ) ≤ (t50 : ℝ) / (t23 : ℝ) := by positivity
    have hcc : c = ((((t50 : ℝ) / (t23 : ℝ)) ^ ((1 : ℝ) / 27) - 1) * 100) := by
      injection hc with h
      exact h.symm
    rw [hcc]
    exact cagr_compound _ hx
  · exact List.sorted_insertionSort summaryGE _
  · exact List.perm_insertionSort summaryGE _

/-- Witness: claim C3 instantiated on a one-mineral table with
`total_2023 = 2` and `total_2050 = 4`. -/
theorem C3_witness :
    ((2 : ℚ) ≠ 0 →
      (⟨Cell.str "Copper", 2, 4, some ((4 - 2) / 2 * 100)⟩ : SummaryRow) ∈
        summary_rows ["Category", "S_2023", "S_2050"]
          [(Cell.str "Copper", [[Cell.str "Copper", Cell.num 2, Cell.num 4]])] "S" ∧
      summaryCagr ["Category", "S_2023", "S_2050"]
          [[Cell.str "Copper", Cell.num 2, Cell.num 4]] "S" =
        some (((((4 : ℚ) : ℝ) / ((2 : ℚ) : ℝ)) ^ ((1 : ℝ) / 27) - 1) * 100)) ∧
    ((0 : ℚ) < 2 → (0 : ℚ) ≤ 4 →
      ∀ c : ℝ, summaryCagr ["Category", "S_2023", "S_2050"]
          [[Cell.str "Copper", Cell.num 2, Cell.num 4]] "S" = some c →
        (1 + c / 100) ^ (27 : ℕ) = (((4 : ℚ) : ℝ) / ((2 : ℚ) : ℝ))) ∧
    List.Sorted summaryGE (finalSummary ["Category", "S_2023", "S_2050"]
      [(Cell.str "Copper", [[Cell.str "Copper", Cell.num 2, Cell.num 4]])] "S") := by
  have h := C3_theorem ["Category", "S_2023", "S_2050"]
    [(Cell.str "Copper", [[Cell.str "Copper", Cell.num 2, Cell.num 4]])] "S"
    (Cell.str "Copper") [[Cell.str "Copper", Cell.num 2, Cell.num 4]] 2 4
    (by decide) (by decide) (by decide)
    (by simp [nansum, getColCells, colIdx?, firstIdx?, toNumeric])
    (by simp [nansum, getColCells, colIdx?, firstIdx?, toNumeric])
  exact ⟨h.1, h.2.2.1, h.2.2.2.1⟩

/-- Claim C4 as stated is false: the module-level handler around
`save_to_excel` in analysis_table_1.py (and its twins in table_2 and
table_3_1) catches the exception, prints a message, and returns
normally — it neither re-raises nor aborts. -/
theorem C4_counterexample :
    (save_wrapper_table1 (Except.error (PyExc.other "disk full"))).2 = Except.ok () ∧
    ¬ handlerReRaises save_wrapper_table1 := by
  constructor
  · rfl
  · intro h
    have hh := h (PyExc.other "disk full")
    simp [save_wrapper_table1] at hh

/-- Amended claim C4: load failures in the visuals' `load_data` print a
message and re-raise, but the analysis scripts' top-level save handlers
catch every exception, print a non-empty message naming the error (so
nothing is discarded silently), and let the module end normally without
re-raising. -/
theorem C4_amended_theorem :
    handlerReRaises load_data_wrapper ∧
    (∀ e, (load_data_wrapper (Except.error e)).1 ≠ []) ∧
    (∀ e, save_wrapper_table1 (Except.error e) =
      (["Error saving Excel file: " ++ pyExcMsg e], Except.ok ())) := by
  refine ⟨?_, ?_, ?_⟩ <;> intro e <;> cases e <;>
    simp [handlerReRaises, load_data_wrapper, save_wrapper_table1]

/-- Claim C5 as stated is false: the Table 3.2 page computes a growth
value for a zero-baseline row (an infinity, which then takes part in the
top/declining ranking) instead of skipping the computation and showing a
fallback message. -/
theorem C5_counterexample :
    table32TopGrowth [("Metal A", PVal.num 0, PVal.num 5)] =
      [("Metal A", PVal.inf true)] ∧
    growth_rates_32 (PVal.num 0) (PVal.num 5) = PVal.inf true := by
  constructor <;> decide

/-- Amended claim C5: the two growth-formula variants agree for every
nonzero baseline; the Table 4.6 page shows per-scenario rates computed
with the `(v-b)/b` variant for a nonzero baseline and one of two
fallback messages for a zero baseline; the Table 4.4 page computes but
never writes the rates for a nonzero baseline and shows its fallback for
a zero one; the Table 3.2 page computes its growth column for every row
unconditionally, with no zero-baseline fallback. -/
theorem C5_amended_theorem (b v : ℚ) (proj : String → ℚ) (hb : b ≠ 0) :
    growthVariantA b v = growthVariantB b v ∧
    growthSection46 b proj =
      .rates (scenarioTriple.map (fun s => (s, growthVariantB b (proj s)))) ∧
    growthSection44 b proj = .rates [] ∧
    (∀ p : String → ℚ, growthSection44 0 p =
      .zeroMessage "Growth rates not available (zero base value)") ∧
    (∀ p : String → ℚ,
      growthSection46 0 p = .zeroMessage "Growth from zero baseline - infinite growth rate" ∨
      growthSection46 0 p = .zeroMessage "No demand in baseline or projections") ∧
    (∀ (m : String) (mb mv : PVal),
      table32TopGrowth [(m, mb, mv)] = [(m, growth_rates_32 mb mv)]) := by
  refine ⟨?_, ?_, ?_, ?_, ?_, ?_⟩
  · unfold growthVariantA growthVariantB
    field_simp
  · unfold growthSection46 growthVariantB
    rw [if_pos hb]
  · unfold growthSection44
    rw [if_pos hb]
  · intro p
    unfold growthSection44
    simp
  · intro p
    unfold growthSection46
    by_cases hz : scenarioTriple.any (fun s => decide (p s > 0))
    · left
      simp [hz]
    · right
      simp at hz
      simp
      exact hz
  · intro m mb mv
    rfl

/-- Witness: the amended C5 theorem applied at baseline 2. -/
theorem C5_amended_witness :
    growthVariantA 2 3 = growthVariantB 2 3 ∧
    growthSection44 0 (fun _ => 5) =
      .zeroMessage "Growth rates not available (zero base value)" := by
  have h := C5_amended_theorem 2 3 (fun _ => 5) (by norm_num)
  exact ⟨h.1, h.2.2.2.1 (fun _ => 5)⟩

/-- Claim C6: dashboard pages render only for a logged-in session;
pressing Log In marks the session logged in exactly when the stripped
username is `mineral_analysis` and the stripped password is
`z1x2c3v4b5`, and marks it logged out otherwise; on success the stored
username and password are deleted from the session state. -/
theorem C6_theorem (u p : String) (s : SessionState) :
    ((password_entered u p s).logged_in = true ↔
      (pyStrip u = "mineral_analysis" ∧ pyStrip p = "z1x2c3v4b5")) ∧
    ((password_entered u p s).logged_in = false ↔
      ¬ (pyStrip u = "mineral_analysis" ∧ pyStrip p = "z1x2c3v4b5")) ∧
    (pyStrip u = "mineral_analysis" → pyStrip p = "z1x2c3v4b5" →
      (password_entered u p s).username = none ∧
      (password_entered u p s).password = none) ∧
    (dashboardRenders s = true ↔ s.logged_in = true) := by
  by_cases h : (pyStrip u == "mineral_analysis" && pyStrip p == "z1x2c3v4b5") = true
  · have h2 := h
    simp only [Bool.and_eq_true, beq_iff_eq] at h2
    refine ⟨?_, ?_, ?_, Iff.rfl⟩ <;>
      simp [password_entered, h, h2, dashboardRenders, check_password]
  · have h2 := h
    simp only [Bool.and_eq_true, beq_iff_eq, not_and] at h2
    refine ⟨?_, ?_, ?_, Iff.rfl⟩ <;>
      simp [password_entered, h, dashboardRenders, check_password] <;>
      tauto

/-- Witness: claim C6 evaluated on a concrete login attempt with
whitespace around the correct credentials. -/
theorem C6_witness :
    (password_entered " mineral_analysis " "z1x2c3v4b5" ⟨false, some "x", some "y"⟩).logged_in
        = true ∧
    (password_entered " mineral_analysis " "z1x2c3v4b5" ⟨false, some "x", some "y"⟩).username
        = none := by
  have h := C6_theorem " mineral_analysis " "z1x2c3v4b5" ⟨false, some "x", some "y"⟩
  exact ⟨h.1.mpr ⟨by decide, by decide⟩, (h.2.2.1 (by decide) (by decide)).1⟩

/-- Claim C7 as stated is false: analysis_table_4_1.py's hard-coded
scenario list uses the full workbook titles, which are not among the
three glossary names. -/
theorem C7_counterexample :
    "Stated Policies scenario" ∈ solarScenarios ∧
    "Stated Policies scenario" ∉ threeScenarioNames ∧
    ¬ (∀ s ∈ solarScenarios, s ∈ threeScenarioNames) := by
  decide

/-- Amended claim C7: the scenario names hard-coded in
analysis_table_3_1/3_2 and on the dashboard's Table 1 page are exactly
the three glossary names; analysis_table_4_1 uses the three full
workbook titles instead; and the scenario names `clean_mineral_demand_data`
attaches to its column labels are taken verbatim from header cells that
contain the letters `scenario` (case-insensitively). -/
theorem C7_amended_theorem (g : Grid) (rd : DemandCleanResult)
    (hd : clean_mineral_demand_data g = .ok rd) :
    (∀ s ∈ scenarioRangesKeys, s ∈ threeScenarioNames) ∧
    (∀ s ∈ streamlitTable1Scenarios, s ∈ threeScenarioNames) ∧
    (∀ s ∈ solarScenarios, s ∈ fullScenarioTitles) ∧
    (∀ s ∈ (scenario_ranges.map (fun x => x.1)), s ∈ threeScenarioNames) ∧
    (∀ s ∈ rd.scenarios, strContains "scenario" (pyLower s) = true) := by
  refine ⟨by decide, by decide, by decide, by decide, ?_⟩
  intro s hs
  obtain ⟨_, _, _, hsc⟩ := clean_demand_ok_inv hd
  rw [hsc] at hs
  obtain ⟨p, hp, rfl⟩ := List.mem_map.mp hs
  exact scanScenarioCols_names _ _ _ none (by simp) p hp

/-- Witness: the amended C7 theorem on `demandYearRowGrid`, whose single
detected scenario name is the header cell `Stated Policies scenario`. -/
theorem C7_amended_witness :
    (∀ s ∈ solarScenarios, s ∈ fullScenarioTitles) ∧
    (∀ s ∈ c1DemandRes.scenarios, strContains "scenario" (pyLower s) = true) := by
  have h := C7_amended_theorem demandYearRowGrid c1DemandRes (by decide)
  exact ⟨h.2.2.1, h.2.2.2.2⟩

/-- Claim C8: the embedded scripts are pure functions of the input
workbook grid, so two runs on equal inputs produce equal parsed tables
and summaries. -/
theorem C8_theorem (g1 g2 : Grid) (h : g1 = g2) :
    run_table_1 g1 = run_table_1 g2 ∧ run_table_4_1 g1 = run_table_4_1 g2 := by
  subst h
  exact ⟨rfl, rfl⟩

/-- Witness: two runs of the embedded scripts on the same concrete
grid. -/
theorem C8_witness :
    run_table_1 demandYearRowGrid = run_table_1 demandYearRowGrid ∧
    run_table_4_1 demandYearRowGrid = run_table_4_1 demandYearRowGrid :=
  C8_theorem demandYearRowGrid demandYearRowGrid rfl

/-- Claim C9: every sheet name the parsers write is either the literal
`Overview` or a `clean_sheet_name` result, and in both cases it is at
most 31 characters long and free of the characters
`\\ / * ? : [ ] ( )`. -/
theorem C9_theorem (labels : List String) (minerals : List (Cell × Grid))
    (scenarios : List String) (sd : List (String × List (String × Grid))) (n : String)
    (h : n ∈ table1SheetNames labels minerals scenarios ∨ n ∈ t31SheetNames sd) :
    (n = "Overview" ∨ ∃ x, n = clean_sheet_name x) ∧
    n.length ≤ 31 ∧
    (∀ c ∈ n.data, ¬ (c ∈ invalidSheetChars ∨ c = '(' ∨ c = ')')) := by
  have hform : n = "Overview" ∨ ∃ x, n = clean_sheet_name x := by
    rcases h with h | h
    · unfold table1SheetNames at h
      rcases List.mem_cons.mp h with h | h
      · exact Or.inl h
      · rcases List.mem_append.mp h with h | h
        · obtain ⟨s, _, rfl⟩ := List.mem_map.mp h
          exact Or.inr ⟨_, rfl⟩
        · obtain ⟨p, _, rfl⟩ := List.mem_map.mp h
          exact Or.inr ⟨_, rfl⟩
    · unfold t31SheetNames at h
      obtain ⟨l, hl, hn⟩ := List.mem_flatten.mp h
      obtain ⟨m, _, hsome⟩ := List.mem_filterMap.mp hl
      obtain ⟨pp, _, hpl⟩ := Option.map_eq_some'.mp hsome
      rw [← hpl] at hn
      obtain ⟨q, _, rfl⟩ := List.mem_map.mp hn
      exact Or.inr ⟨_, rfl⟩
  refine ⟨hform, ?_, ?_⟩
  · rcases hform with rfl | ⟨x, rfl⟩
    · decide
    · exact clean_sheet_name_length x
  · rcases hform with rfl | ⟨x, rfl⟩
    · decide
    · exact clean_sheet_name_chars x

/-- Witness: claim C9 applied to the `Overview` sheet of an empty
workbook. -/
theorem C9_witness :
    ("Overview" ∈ table1SheetNames [] [] []) ∧
    (("Overview" = "Overview" ∨ ∃ x, "Overview" = clean_sheet_name x) ∧
      ("Overview" : String).length ≤ 31) := by
  have h := C9_theorem [] [] [] [] "Overview" (Or.inl (by decide))
  exact ⟨by decide, h.1, h.2.1⟩

/-- Claim C10: with unique country names within the mining entries and
within the refining entries, `process_metal_data` lists every mining
country first in its original order, then the refining-only countries in
their original order, and each country exactly once. -/
theorem C10_theorem (mining refining : List SupplyEntry) (years : List ℚ)
    (hm : (mining.map (fun e => e.country)).Nodup)
    (hr : (refining.map (fun e => e.country)).Nodup) :
    ((process_metal_data mining refining years).map (fun e => e.country) =
      mining.map (fun e => e.country) ++
        (refining.map (fun e => e.country)).filter
          (fun c => !(mining.map (fun e => e.country)).contains c)) ∧
    ((process_metal_data mining refining years).map (fun e => e.country)).Nodup ∧
    (∀ c, c ∈ (process_metal_data mining refining years).map (fun e => e.country) ↔
      (c ∈ mining.map (fun e => e.country) ∨ c ∈ refining.map (fun e => e.country))) ∧
    (∀ c, (c ∈ mining.map (fun e => e.country) ∨ c ∈ refining.map (fun e => e.country)) →
      ((process_metal_data mining refining years).map (fun e => e.country)).count c = 1) := by
  have hmap : (process_metal_data mining refining years).map (fun e => e.country) =
      mining.map (fun e => e.country) ++
        (refining.map (fun e => e.country)).filter
          (fun c => !(mining.map (fun e => e.country)).contains c) := by
    simp only [process_metal_data, List.map_map]
    exact List.map_id _
  have hnodup : ((process_metal_data mining refining years).map (fun e => e.country)).Nodup := by
    rw [hmap]
    refine List.Nodup.append hm (hr.filter _) ?_
    intro c hc1 hc2
    have hnc := List.of_mem_filter hc2
    simp at hnc
    obtain ⟨e, he, hec⟩ := List.mem_map.mp hc1
    exact hnc e he hec
  have hiff : ∀ c, c ∈ (process_metal_data mining refining years).map (fun e => e.country) ↔
      (c ∈ mining.map (fun e => e.country) ∨ c ∈ refining.map (fun e => e.country)) := by
    intro c
    rw [hmap, List.mem_append]
    constructor
    · rintro (h | h)
      · exact Or.inl h
      · exact Or.inr (List.mem_of_mem_filter h)
    · rintro (h | h)
      · exact Or.inl h
      · by_cases hm2 : c ∈ mining.map (fun e => e.country)
        · exact Or.inl hm2
        · refine Or.inr (List.mem_filter.mpr ⟨h, ?_⟩)
          simp [hm2]
  refine ⟨hmap, hnodup, hiff, ?_⟩
  intro c hc
  exact List.count_eq_one_of_mem hnodup ((hiff c).mpr hc)

/-- Witness: claim C10 on a two-country mining table and a refining
table sharing one country. -/
theorem C10_witness :
    (process_metal_data
        [⟨"China", [("Mining_2023", 5)]⟩, ⟨"Chile", [("Mining_2023", 3)]⟩]
        [⟨"Chile", [("Refining_2023", 2)]⟩, ⟨"Japan", [("Refining_2023", 1)]⟩]
        [2023]).map (fun e => e.country) =
      ["China", "Chile"] ++
        (["Chile", "Japan"].filter (fun c => !(["China", "Chile"].contains c))) ∧
    ((process_metal_data
        [⟨"China", [("Mining_2023", 5)]⟩, ⟨"Chile", [("Mining_2023", 3)]⟩]
        [⟨"Chile", [("Refining_2023", 2)]⟩, ⟨"Japan", [("Refining_2023", 1)]⟩]
        [2023]).map (fun e => e.country)).Nodup := by
  have h := C10_theorem
    [⟨"China", [("Mining_2023", 5)]⟩, ⟨"Chile", [("Mining_2023", 3)]⟩]
    [⟨"Chile", [("Refining_2023", 2)]⟩, ⟨"Japan", [("Refining_2023", 1)]⟩]
    [2023] (by decide) (by decide)
  exact ⟨h.1, h.2.1⟩

end MineralAnalysis
